import Mathlib

/-!
# PolyFit command-line driver (`src/Example/main.cpp`)

A shallow embedding of `main`: the option handling of lines 42-88 and the
reconstruction pipeline of lines 105-168.

* The three weights are `float`s in the source.  A `float` is embedded as the
  rational number it holds.  A decimal literal of the source is a `double`
  that the declaration converts to `float`: `float (double 0.43)` is the
  binary32 value nearest to the binary64 value nearest to 43/100, and so on
  (`binary`, round to nearest, ties to even, normal range).
* `boost::program_options` is a library outside the repository.  What it does
  with a command line is an input of the model (`CommandLine`); `store` and
  `notify` follow the library's documented behaviour for the option table that
  `main` declares at lines 54-64.
* Every stage of the core (`PointSetIO`, `HypothesisGenerator`,
  `FaceSelection`, `MapIO`) lives outside `src/`.  Their behaviour is a
  parameter of the model (`World`).
* A run yields the exit status, the `Method::lambda_*` globals, and the
  sequence of observable events (console output and calls into the core).
-/

namespace PolyFit

/-! ## Data model -/

/-- Exit status `EXIT_SUCCESS` of `<cstdlib>`. -/
def EXIT_SUCCESS : Nat := 0

/-- Exit status `EXIT_FAILURE` of `<cstdlib>`. -/
def EXIT_FAILURE : Nat := 1

/-- Modelled from the spec: the enumerated set of interchangeable
integer-programming backends (`LinearProgramSolver`, declared outside `src/`).
`main.cpp` names only `SCIP` (line 151). -/
inductive LinearProgramSolver
  | GUROBI
  | SCIP
  | LPSOLVE
  | GLPK
  deriving DecidableEq, Repr

/-- Round to the nearest integer, ties to the even one. -/
def roundHalfEven (x : ℚ) : ℤ :=
  if x - ⌊x⌋ < 1 / 2 then ⌊x⌋
  else if 1 / 2 < x - ⌊x⌋ then ⌊x⌋ + 1
  else if ⌊x⌋ % 2 = 0 then ⌊x⌋ else ⌊x⌋ + 1

/-- The number with a significand of `p` bits nearest to `x`, ties to even:
IEEE 754 rounding for `x` in the normal range of the format (no overflow, no
subnormal numbers).  `Int.log 2 |x|` is the binary exponent of `x`. -/
def binary (p : ℕ) (x : ℚ) : ℚ :=
  if x = 0 then 0
  else (roundHalfEven (x * 2 ^ ((p : ℤ) - 1 - Int.log 2 |x|)) : ℚ) /
    2 ^ ((p : ℤ) - 1 - Int.log 2 |x|)

/-- The `double` (binary64, 53-bit significand) that a decimal literal of the
source denotes. -/
def double (x : ℚ) : ℚ := binary 53 x

/-- The conversion to `float` (binary32, 24-bit significand), as in
`float lambda_data_fitting = 0.43;` and in `value<float>(..)->default_value(0.43)`. -/
def float (x : ℚ) : ℚ := binary 24 x

/-- The five local variables of `main` declared at lines 43-49.  The three
`float`s are the rational numbers they hold. -/
structure Locals where
  lambda_data_fitting : ℚ
  lambda_model_coverage : ℚ
  lambda_model_complexity : ℚ
  input_file : String
  output_file : String
  deriving DecidableEq

/-- The initial values of the locals, lines 43-49. -/
def initialLocals : Locals where
  lambda_data_fitting := float (double 0.43)
  lambda_model_coverage := float (double 0.27)
  lambda_model_complexity := float (double 0.3)
  input_file := "in.vg"
  output_file := "out.obj"

/-- The globals `Method::lambda_data_fitting`, `Method::lambda_model_coverage`
and `Method::lambda_model_complexity` that `main` assigns at lines 117-119. -/
structure Method where
  lambda_data_fitting : ℚ
  lambda_model_coverage : ℚ
  lambda_model_complexity : ℚ
  deriving DecidableEq

/-- What a command line supplies, option by option: `help` is a switch, the
other five carry a value, for the three weights the `float` that the parser
converted the text to.  An option is supplied at most once (a second
occurrence makes `store` throw). -/
structure Supplied where
  help : Bool
  input : Option String
  output : Option String
  lambda_data_fitting : Option ℚ
  lambda_model_coverage : Option ℚ
  lambda_model_complexity : Option ℚ
  deriving DecidableEq

/-- The two ways line 67 can end.  `accepted s`: `parse_command_line` and
`store` return, the command line supplying `s`.  `rejected what seen`: one of
them throws a `boost::program_options::error` with message `what` (unknown
option, missing or malformed value, repeated option); `seen` are the options
of that command line that were themselves well formed. -/
inductive CommandLine
  | accepted (s : Supplied)
  | rejected (what : String) (seen : Supplied)
  deriving DecidableEq

/-- An entry of a `variables_map`: the value and whether it is the default. -/
structure variable_value (α : Type) where
  value : α
  defaulted : Bool
  deriving DecidableEq

/-- The `variables_map vm` of line 66, restricted to the six options of `desc`.
`help` has no value; an absent entry is `none`. -/
structure variables_map where
  help : Bool
  input : Option (variable_value String)
  output : Option (variable_value String)
  lambda_data_fitting : Option (variable_value ℚ)
  lambda_model_coverage : Option (variable_value ℚ)
  lambda_model_complexity : Option (variable_value ℚ)
  deriving DecidableEq

/-- An entry of `store`: the supplied value, or else the `default_value` of
the option marked as defaulted. -/
def storeEntry {α : Type} (supplied : Option α) (default_value : α) :
    Option (variable_value α) :=
  match supplied with
  | some v => some ⟨v, false⟩
  | none => some ⟨default_value, true⟩

/-- The call `store(parse_command_line(argc, argv, desc), vm)` of line 67 on an
accepted command line, with the `default_value`s of lines 58-63. -/
def store (s : Supplied) : variables_map where
  help := s.help
  input := storeEntry s.input "in.vg"
  output := storeEntry s.output "out.obj"
  lambda_data_fitting := storeEntry s.lambda_data_fitting (float (double 0.43))
  lambda_model_coverage := storeEntry s.lambda_model_coverage (float (double 0.27))
  lambda_model_complexity := storeEntry s.lambda_model_complexity (float (double 0.3))

/-- What `notify` does for one option declared with `value<T>(&variable)`: the
entry of the map, when there is one, is written to the bound variable. -/
def notifyEntry {α : Type} (entry : Option (variable_value α)) (bound : α) : α :=
  match entry with
  | some v => v.value
  | none => bound

/-- The call `notify(vm)` of line 68: each of the five bound variables of
lines 58-63 receives its entry of the map. -/
def notify (vm : variables_map) (l : Locals) : Locals where
  lambda_data_fitting := notifyEntry vm.lambda_data_fitting l.lambda_data_fitting
  lambda_model_coverage := notifyEntry vm.lambda_model_coverage l.lambda_model_coverage
  lambda_model_complexity := notifyEntry vm.lambda_model_complexity l.lambda_model_complexity
  input_file := notifyEntry vm.input l.input_file
  output_file := notifyEntry vm.output l.output_file

/-- The names of the calls into the core, in the order `main` writes them. -/
inductive Stage
  | read
  | refine_planes
  | generate
  | compute_confidences
  | extract_adjacency
  | optimize
  | save
  deriving DecidableEq, Repr

/-- An observable step of a run: console output, or a call leaving `main`. -/
inductive Event
  | cout (text : String)
  | cout_desc
  | cerr (text : String)
  | Logger_initialize
  | read (file_name : String)
  | refine_planes
  | generate
  | compute_confidences
  | extract_adjacency
  | optimize (solver_name : LinearProgramSolver)
  | delete_pset
  | save (file_name : String)
  deriving DecidableEq, Repr

/-- The stage an event is a call of, if any. -/
def Event.stage : Event → Option Stage
  | .read _ => some .read
  | .refine_planes => some .refine_planes
  | .generate => some .generate
  | .compute_confidences => some .compute_confidences
  | .extract_adjacency => some .extract_adjacency
  | .optimize _ => some .optimize
  | .save _ => some .save
  | _ => none

/-- The sequence of stage calls of a trace. -/
def stageCalls (trace : List Event) : List Stage :=
  trace.filterMap Event.stage

/-- The seven stage calls in the order of lines 122-160. -/
def allStages : List Stage :=
  [.read, .refine_planes, .generate, .compute_confidences, .extract_adjacency,
   .optimize, .save]

/-- The core outside `src/`, as a parameter.  `PointSet`, `Map` and
`Adjacency` are the types of the same names; the state of the
`HypothesisGenerator` object travels with the point set it was built from.
The stages may read the `Method` globals.  `optimize` is called as a statement
(line 151): the `Bool` is whether the solve inside it succeeded, which `main`
has no access to, and the `Map` is the mesh it leaves behind. -/
structure World (PointSet Map Adjacency : Type) where
  read : String → Option PointSet
  groups_empty : PointSet → Bool
  refine_planes : Method → PointSet → PointSet
  generate : Method → PointSet → Option Map
  compute_confidences : Method → PointSet → Map → Map
  extract_adjacency : Method → PointSet → Map → Adjacency
  optimize : Method → PointSet → Map → Adjacency → LinearProgramSolver → Bool × Map
  size_of_facets : Map → Nat
  save : String → Map → Bool

/-- The outcome of a run of `main`. -/
structure Run where
  exit : Nat
  Method : Method
  trace : List Event
  deriving DecidableEq

/-! ## Option handling, lines 52-88 -/

/-- The `if`/`else if` chain of lines 70-83, run after `notify`.
`vm.count(key)` is non-zero exactly when the map has an entry for `key`, and
`vm[key].as<T>()` is then the value of that entry. -/
def chain (vm : variables_map) (l : Locals) : Locals × List Event :=
  if vm.help then (l, [Event.cout_desc])
  else match vm.input with
  | some v => ({ l with input_file := v.value }, [])
  | none =>
  match vm.output with
  | some v => ({ l with output_file := v.value }, [])
  | none =>
  match vm.lambda_data_fitting with
  | some v => ({ l with lambda_data_fitting := v.value }, [])
  | none =>
  match vm.lambda_model_coverage with
  | some v => ({ l with lambda_model_coverage := v.value }, [])
  | none =>
  match vm.lambda_model_complexity with
  | some v => ({ l with lambda_model_complexity := v.value }, [])
  | none => (l, [])

/-- The `try`/`catch` block of lines 52-88: the locals it leaves and what it
prints. -/
def options (cl : CommandLine) (l : Locals) : Locals × List Event :=
  match cl with
  | .accepted s => chain (store s) (notify (store s) l)
  | .rejected what _ => (l, [Event.cerr what])

/-! ## The pipeline, lines 117-168 -/

/-- Lines 117-119. -/
def assignMethod (l : Locals) : Method where
  lambda_data_fitting := l.lambda_data_fitting
  lambda_model_coverage := l.lambda_model_coverage
  lambda_model_complexity := l.lambda_model_complexity

/-- Lines 145-151: what `optimize` returns for the candidate mesh `mesh`, after
`compute_confidences` and `extract_adjacency`, with the backend of line 151. -/
def optimized {PointSet Map Adjacency : Type} (w : World PointSet Map Adjacency)
    (m : Method) (pset1 : PointSet) (mesh : Map) : Bool × Map :=
  let mesh1 := w.compute_confidences m pset1 mesh
  let adjacency := w.extract_adjacency m pset1 mesh1
  w.optimize m pset1 mesh1 adjacency LinearProgramSolver.SCIP

/-- Lines 121-168: the exit status and the events, given the locals. -/
def pipeline {PointSet Map Adjacency : Type} (w : World PointSet Map Adjacency)
    (l : Locals) : Nat × List Event :=
  let m := assignMethod l
  match w.read l.input_file with
  | none =>
    (EXIT_FAILURE,
      [.read l.input_file,
       .cerr ("failed loading point cloud from file: " ++ l.input_file)])
  | some pset =>
    if w.groups_empty pset then
      (EXIT_FAILURE,
        [.read l.input_file, .cout "refining planes...",
         .cerr "planar segments do not exist"])
    else
      let pset1 := w.refine_planes m pset
      match w.generate m pset1 with
      | none =>
        (EXIT_FAILURE,
          [.read l.input_file, .cout "refining planes...", .refine_planes,
           .cout "generating plane hypothesis...", .generate,
           .cerr ("failed generating candidate faces. Please check if the input " ++
             "point cloud has good planar segments")])
      | some mesh =>
        let mesh2 := (optimized w m pset1 mesh).2
        if w.size_of_facets mesh2 = 0 then
          (EXIT_FAILURE,
            [.read l.input_file, .cout "refining planes...", .refine_planes,
             .cout "generating plane hypothesis...", .generate, .compute_confidences,
             .cout "optimization...", .extract_adjacency,
             .optimize LinearProgramSolver.SCIP,
             .cerr "optimization failed: model has on faces"])
        else if w.save l.output_file mesh2 then
          (EXIT_SUCCESS,
            [.read l.input_file, .cout "refining planes...", .refine_planes,
             .cout "generating plane hypothesis...", .generate, .compute_confidences,
             .cout "optimization...", .extract_adjacency,
             .optimize LinearProgramSolver.SCIP, .delete_pset,
             .save l.output_file,
             .cout ("reconstructed model saved to file: " ++ l.output_file)])
        else
          (EXIT_FAILURE,
            [.read l.input_file, .cout "refining planes...", .refine_planes,
             .cout "generating plane hypothesis...", .generate, .compute_confidences,
             .cout "optimization...", .extract_adjacency,
             .optimize LinearProgramSolver.SCIP, .delete_pset,
             .save l.output_file,
             .cerr ("failed saving reconstructed model to file: " ++ l.output_file)])

/-- The function `main` of lines 38-168. -/
def main {PointSet Map Adjacency : Type} (w : World PointSet Map Adjacency)
    (cl : CommandLine) : Run :=
  let o := options cl initialLocals
  let p := pipeline w o.1
  { exit := p.1
    Method := assignMethod o.1
    trace := [Event.cout "PolyFit Commandline Tool"] ++ o.2 ++
      [Event.Logger_initialize] ++ p.2 }

/-! ## Reading a run -/

/-- The values the command line `s` asks for: for each of the five options the
supplied value, and the default of lines 58-63 when the option is absent. -/
def suppliedOrDefault (s : Supplied) : Locals where
  lambda_data_fitting := s.lambda_data_fitting.getD (float (double 0.43))
  lambda_model_coverage := s.lambda_model_coverage.getD (float (double 0.27))
  lambda_model_complexity := s.lambda_model_complexity.getD (float (double 0.3))
  input_file := s.input.getD "in.vg"
  output_file := s.output.getD "out.obj"

/-- How many of the five options that carry a value the command line supplies. -/
def suppliedCount (s : Supplied) : Nat :=
  s.input.isSome.toNat + s.output.isSome.toNat + s.lambda_data_fitting.isSome.toNat +
    s.lambda_model_coverage.isSome.toNat + s.lambda_model_complexity.isSome.toNat

/-- The four checks of lines 123, 131, 141 and 152 all pass for the locals `l`,
and `mesh2` is the mesh that reaches line 160: the point set loads, its group
list is not empty, `generate` returns a mesh, and the mesh that `optimize`
leaves has at least one facet. -/
def ChecksPass {PointSet Map Adjacency : Type} (w : World PointSet Map Adjacency)
    (l : Locals) (mesh2 : Map) : Prop :=
  ∃ pset mesh,
    w.read l.input_file = some pset ∧
    w.groups_empty pset = false ∧
    w.generate (assignMethod l) (w.refine_planes (assignMethod l) pset) = some mesh ∧
    mesh2 = (optimized w (assignMethod l) (w.refine_planes (assignMethod l) pset) mesh).2 ∧
    1 ≤ w.size_of_facets mesh2

/-- The point at which the pipeline leaves `main`, each with what the stages
returned up to there. -/
inductive Ending {PointSet Map Adjacency : Type} (w : World PointSet Map Adjacency)
    (l : Locals) : Prop
  | read_failed (hr : w.read l.input_file = none)
  | no_groups (pset : PointSet) (hr : w.read l.input_file = some pset)
      (hg : w.groups_empty pset = true)
  | generate_failed (pset : PointSet) (hr : w.read l.input_file = some pset)
      (hg : w.groups_empty pset = false)
      (hm : w.generate (assignMethod l) (w.refine_planes (assignMethod l) pset) = none)
  | no_facets (pset : PointSet) (mesh : Map) (hr : w.read l.input_file = some pset)
      (hg : w.groups_empty pset = false)
      (hm : w.generate (assignMethod l) (w.refine_planes (assignMethod l) pset) = some mesh)
      (hf : w.size_of_facets
        (optimized w (assignMethod l) (w.refine_planes (assignMethod l) pset) mesh).2 = 0)
  | saved (pset : PointSet) (mesh : Map) (hr : w.read l.input_file = some pset)
      (hg : w.groups_empty pset = false)
      (hm : w.generate (assignMethod l) (w.refine_planes (assignMethod l) pset) = some mesh)
      (hf : w.size_of_facets
        (optimized w (assignMethod l) (w.refine_planes (assignMethod l) pset) mesh).2 ≠ 0)
      (hs : w.save l.output_file
        (optimized w (assignMethod l) (w.refine_planes (assignMethod l) pset) mesh).2 = true)
  | save_failed (pset : PointSet) (mesh : Map) (hr : w.read l.input_file = some pset)
      (hg : w.groups_empty pset = false)
      (hm : w.generate (assignMethod l) (w.refine_planes (assignMethod l) pset) = some mesh)
      (hf : w.size_of_facets
        (optimized w (assignMethod l) (w.refine_planes (assignMethod l) pset) mesh).2 ≠ 0)
      (hs : w.save l.output_file
        (optimized w (assignMethod l) (w.refine_planes (assignMethod l) pset) mesh).2 = false)

/-- A world in which every stage succeeds: the point set has a group, the
candidate mesh has six facets and the solve keeps them all. -/
def goodWorld : World Unit Nat Unit where
  read := fun _ => some ()
  groups_empty := fun _ => false
  refine_planes := fun _ p => p
  generate := fun _ _ => some 6
  compute_confidences := fun _ _ mesh => mesh
  extract_adjacency := fun _ _ _ => ()
  optimize := fun _ _ mesh _ _ => (true, mesh)
  size_of_facets := fun mesh => mesh
  save := fun _ _ => true

/-- A command line without any option. -/
def noFlags : Supplied where
  help := false
  input := none
  output := none
  lambda_data_fitting := none
  lambda_model_coverage := none
  lambda_model_complexity := none

/-! ## The weights as `float`s -/

theorem log_two_eq (x : ℚ) (e : ℤ) (h1 : (2 : ℚ) ^ e ≤ |x|)
    (h2 : |x| < (2 : ℚ) ^ (e + 1)) : Int.log 2 |x| = e := by
  have hpos : (0 : ℚ) < |x| := lt_of_lt_of_le (by positivity) h1
  have a : e ≤ Int.log 2 |x| :=
    (Int.zpow_le_iff_le_log (by norm_num) hpos).1 (by exact_mod_cast h1)
  have b : Int.log 2 |x| < e + 1 :=
    (Int.lt_zpow_iff_log_lt (by norm_num) hpos).1 (by exact_mod_cast h2)
  omega

theorem roundHalfEven_down (x : ℚ) (n : ℤ) (h1 : (n : ℚ) ≤ x) (h2 : x < n + 1 / 2) :
    roundHalfEven x = n := by
  have hf : ⌊x⌋ = n := Int.floor_eq_iff.2 ⟨h1, by linarith⟩
  unfold roundHalfEven
  rw [hf, if_pos (by linarith)]

theorem roundHalfEven_up (x : ℚ) (n : ℤ) (h1 : (n : ℚ) + 1 / 2 < x) (h2 : x < n + 1) :
    roundHalfEven x = n + 1 := by
  have hf : ⌊x⌋ = n := Int.floor_eq_iff.2 ⟨by linarith, h2⟩
  unfold roundHalfEven
  rw [hf, if_neg (by linarith), if_pos (by linarith)]

theorem binary_eq (p : ℕ) (x : ℚ) (e : ℤ) (h1 : (2 : ℚ) ^ e ≤ |x|)
    (h2 : |x| < (2 : ℚ) ^ (e + 1)) :
    binary p x =
      (roundHalfEven (x * 2 ^ ((p : ℤ) - 1 - e)) : ℚ) / 2 ^ ((p : ℤ) - 1 - e) := by
  have hx : x ≠ 0 := by
    rintro rfl
    simp only [abs_zero] at h1
    exact absurd h1 (not_le.2 (by positivity))
  unfold binary
  rw [if_neg hx, log_two_eq x e h1 h2]

theorem double_043 : double 0.43 = 7746191359077253 / 2 ^ 54 := by
  unfold double
  rw [binary_eq 53 0.43 (-2) (by norm_num [abs_of_pos]) (by norm_num [abs_of_pos]),
    roundHalfEven_down _ 7746191359077253 (by norm_num) (by norm_num)]
  norm_num

theorem double_027 : double 0.27 = 4863887597560136 / 2 ^ 54 := by
  unfold double
  rw [binary_eq 53 0.27 (-2) (by norm_num [abs_of_pos]) (by norm_num [abs_of_pos]),
    roundHalfEven_up _ 4863887597560135 (by norm_num) (by norm_num)]
  norm_num

theorem double_03 : double 0.3 = 5404319552844595 / 2 ^ 54 := by
  unfold double
  rw [binary_eq 53 0.3 (-2) (by norm_num [abs_of_pos]) (by norm_num [abs_of_pos]),
    roundHalfEven_down _ 5404319552844595 (by norm_num) (by norm_num)]
  norm_num

theorem float_double_043 : float (double 0.43) = 7214203 / 2 ^ 24 := by
  rw [double_043]
  unfold float
  rw [binary_eq 24 _ (-2) (by norm_num [abs_of_pos]) (by norm_num [abs_of_pos]),
    roundHalfEven_up _ 14428405 (by norm_num) (by norm_num)]
  norm_num

theorem float_double_027 : float (double 0.27) = 9059697 / 2 ^ 25 := by
  rw [double_027]
  unfold float
  rw [binary_eq 24 _ (-2) (by norm_num [abs_of_pos]) (by norm_num [abs_of_pos]),
    roundHalfEven_up _ 9059696 (by norm_num) (by norm_num)]
  norm_num

theorem float_double_03 : float (double 0.3) = 5033165 / 2 ^ 24 := by
  rw [double_03]
  unfold float
  rw [binary_eq 24 _ (-2) (by norm_num [abs_of_pos]) (by norm_num [abs_of_pos]),
    roundHalfEven_up _ 10066329 (by norm_num) (by norm_num)]
  norm_num

/-! ## Lemmas on the option handling -/

theorem chain_fst_of_notify (s : Supplied) (l : Locals) :
    (chain (store s) (notify (store s) l)).1 = notify (store s) l := by
  obtain ⟨h, i, o, f, c, x⟩ := s
  cases h <;> cases i <;> simp [chain, store, notify, storeEntry, notifyEntry]

theorem notify_store (s : Supplied) (l : Locals) :
    notify (store s) l = suppliedOrDefault s := by
  obtain ⟨h, i, o, f, c, x⟩ := s
  cases i <;> cases o <;> cases f <;> cases c <;> cases x <;>
    simp [store, notify, storeEntry, notifyEntry, suppliedOrDefault]

theorem options_accepted_fst (s : Supplied) (l : Locals) :
    (options (CommandLine.accepted s) l).1 = suppliedOrDefault s := by
  show (chain (store s) (notify (store s) l)).1 = suppliedOrDefault s
  rw [chain_fst_of_notify, notify_store]

theorem options_accepted_snd (s : Supplied) (l : Locals) :
    (options (CommandLine.accepted s) l).2 = if s.help then [Event.cout_desc] else [] := by
  obtain ⟨h, i, o, f, c, x⟩ := s
  cases h <;> cases i <;> simp [options, chain, store, notify, storeEntry, notifyEntry]

theorem options_rejected (what : String) (seen : Supplied) (l : Locals) :
    options (CommandLine.rejected what seen) l = (l, [Event.cerr what]) := rfl

theorem chain_store_fst (s : Supplied) (l : Locals) :
    (chain (store s) l).1 =
      if s.help then l else { l with input_file := s.input.getD "in.vg" } := by
  obtain ⟨h, i, o, f, c, x⟩ := s
  cases h <;> cases i <;> simp [chain, store, storeEntry]

/-! ## Lemmas on the pipeline -/

theorem stageCalls_main {PointSet Map Adjacency : Type} (w : World PointSet Map Adjacency)
    (cl : CommandLine) :
    stageCalls (main w cl).trace = stageCalls (pipeline w (options cl initialLocals).1).2 := by
  cases cl with
  | accepted s =>
    simp only [main, stageCalls, options_accepted_snd]
    cases s.help <;> simp [Event.stage]
  | rejected what seen =>
    simp [main, stageCalls, options_rejected, Event.stage]

theorem pipeline_read_failed {PointSet Map Adjacency : Type}
    (w : World PointSet Map Adjacency) (l : Locals) (hr : w.read l.input_file = none) :
    pipeline w l =
      (EXIT_FAILURE,
        [.read l.input_file,
         .cerr ("failed loading point cloud from file: " ++ l.input_file)]) := by
  simp [pipeline, hr]

theorem pipeline_no_groups {PointSet Map Adjacency : Type}
    (w : World PointSet Map Adjacency) (l : Locals) (pset : PointSet)
    (hr : w.read l.input_file = some pset) (hg : w.groups_empty pset = true) :
    pipeline w l =
      (EXIT_FAILURE,
        [.read l.input_file, .cout "refining planes...",
         .cerr "planar segments do not exist"]) := by
  simp [pipeline, hr, hg]

theorem pipeline_generate_failed {PointSet Map Adjacency : Type}
    (w : World PointSet Map Adjacency) (l : Locals) (pset : PointSet)
    (hr : w.read l.input_file = some pset) (hg : w.groups_empty pset = false)
    (hm : w.generate (assignMethod l) (w.refine_planes (assignMethod l) pset) = none) :
    pipeline w l =
      (EXIT_FAILURE,
        [.read l.input_file, .cout "refining planes...", .refine_planes,
         .cout "generating plane hypothesis...", .generate,
         .cerr ("failed generating candidate faces. Please check if the input " ++
           "point cloud has good planar segments")]) := by
  simp [pipeline, hr, hg, hm]

theorem pipeline_no_facets {PointSet Map Adjacency : Type}
    (w : World PointSet Map Adjacency) (l : Locals) (pset : PointSet) (mesh : Map)
    (hr : w.read l.input_file = some pset) (hg : w.groups_empty pset = false)
    (hm : w.generate (assignMethod l) (w.refine_planes (assignMethod l) pset) = some mesh)
    (hf : w.size_of_facets
      (optimized w (assignMethod l) (w.refine_planes (assignMethod l) pset) mesh).2 = 0) :
    pipeline w l =
      (EXIT_FAILURE,
        [.read l.input_file, .cout "refining planes...", .refine_planes,
         .cout "generating plane hypothesis...", .generate, .compute_confidences,
         .cout "optimization...", .extract_adjacency,
         .optimize LinearProgramSolver.SCIP,
         .cerr "optimization failed: model has on faces"]) := by
  simp [pipeline, hr, hg, hm, hf]

theorem pipeline_saved {PointSet Map Adjacency : Type}
    (w : World PointSet Map Adjacency) (l : Locals) (pset : PointSet) (mesh : Map)
    (hr : w.read l.input_file = some pset) (hg : w.groups_empty pset = false)
    (hm : w.generate (assignMethod l) (w.refine_planes (assignMethod l) pset) = some mesh)
    (hf : w.size_of_facets
      (optimized w (assignMethod l) (w.refine_planes (assignMethod l) pset) mesh).2 ≠ 0)
    (hs : w.save l.output_file
      (optimized w (assignMethod l) (w.refine_planes (assignMethod l) pset) mesh).2 = true) :
    pipeline w l =
      (EXIT_SUCCESS,
        [.read l.input_file, .cout "refining planes...", .refine_planes,
         .cout "generating plane hypothesis...", .generate, .compute_confidences,
         .cout "optimization...", .extract_adjacency,
         .optimize LinearProgramSolver.SCIP, .delete_pset,
         .save l.output_file,
         .cout ("reconstructed model saved to file: " ++ l.output_file)]) := by
  simp [pipeline, hr, hg, hm, hf, hs]

theorem pipeline_save_failed {PointSet Map Adjacency : Type}
    (w : World PointSet Map Adjacency) (l : Locals) (pset : PointSet) (mesh : Map)
    (hr : w.read l.input_file = some pset) (hg : w.groups_empty pset = false)
    (hm : w.generate (assignMethod l) (w.refine_planes (assignMethod l) pset) = some mesh)
    (hf : w.size_of_facets
      (optimized w (assignMethod l) (w.refine_planes (assignMethod l) pset) mesh).2 ≠ 0)
    (hs : w.save l.output_file
      (optimized w (assignMethod l) (w.refine_planes (assignMethod l) pset) mesh).2 = false) :
    pipeline w l =
      (EXIT_FAILURE,
        [.read l.input_file, .cout "refining planes...", .refine_planes,
         .cout "generating plane hypothesis...", .generate, .compute_confidences,
         .cout "optimization...", .extract_adjacency,
         .optimize LinearProgramSolver.SCIP, .delete_pset,
         .save l.output_file,
         .cerr ("failed saving reconstructed model to file: " ++ l.output_file)]) := by
  simp [pipeline, hr, hg, hm, hf, hs]

theorem ending {PointSet Map Adjacency : Type} (w : World PointSet Map Adjacency)
    (l : Locals) : Ending w l := by
  cases hr : w.read l.input_file with
  | none => exact .read_failed hr
  | some pset =>
    cases hg : w.groups_empty pset with
    | true => exact .no_groups pset hr hg
    | false =>
      cases hm : w.generate (assignMethod l) (w.refine_planes (assignMethod l) pset) with
      | none => exact .generate_failed pset hr hg hm
      | some mesh =>
        by_cases hf : w.size_of_facets
            (optimized w (assignMethod l) (w.refine_planes (assignMethod l) pset) mesh).2 = 0
        · exact .no_facets pset mesh hr hg hm hf
        · cases hs : w.save l.output_file
              (optimized w (assignMethod l) (w.refine_planes (assignMethod l) pset) mesh).2
          · exact .save_failed pset mesh hr hg hm hf hs
          · exact .saved pset mesh hr hg hm hf hs

theorem pipeline_exit_success_iff {PointSet Map Adjacency : Type}
    (w : World PointSet Map Adjacency) (l : Locals) :
    (pipeline w l).1 = EXIT_SUCCESS ↔
      ∃ mesh2, ChecksPass w l mesh2 ∧ w.save l.output_file mesh2 = true := by
  constructor
  · intro h
    cases ending w l with
    | read_failed hr => rw [pipeline_read_failed w l hr] at h; simp [EXIT_FAILURE, EXIT_SUCCESS] at h
    | no_groups pset hr hg =>
      rw [pipeline_no_groups w l pset hr hg] at h; simp [EXIT_FAILURE, EXIT_SUCCESS] at h
    | generate_failed pset hr hg hm =>
      rw [pipeline_generate_failed w l pset hr hg hm] at h; simp [EXIT_FAILURE, EXIT_SUCCESS] at h
    | no_facets pset mesh hr hg hm hf =>
      rw [pipeline_no_facets w l pset mesh hr hg hm hf] at h; simp [EXIT_FAILURE, EXIT_SUCCESS] at h
    | save_failed pset mesh hr hg hm hf hs =>
      rw [pipeline_save_failed w l pset mesh hr hg hm hf hs] at h; simp [EXIT_FAILURE, EXIT_SUCCESS] at h
    | saved pset mesh hr hg hm hf hs =>
      exact ⟨_, ⟨pset, mesh, hr, hg, hm, rfl, Nat.one_le_iff_ne_zero.mpr hf⟩, hs⟩
  · rintro ⟨mesh2, ⟨pset, mesh, hr, hg, hm, rfl, hle⟩, hs⟩
    rw [pipeline_saved w l pset mesh hr hg hm (by omega) hs]

theorem pipeline_exit_cases {PointSet Map Adjacency : Type}
    (w : World PointSet Map Adjacency) (l : Locals) :
    (pipeline w l).1 = EXIT_SUCCESS ∨ (pipeline w l).1 = EXIT_FAILURE := by
  cases ending w l with
  | read_failed hr => rw [pipeline_read_failed w l hr]; exact Or.inr rfl
  | no_groups pset hr hg => rw [pipeline_no_groups w l pset hr hg]; exact Or.inr rfl
  | generate_failed pset hr hg hm =>
    rw [pipeline_generate_failed w l pset hr hg hm]; exact Or.inr rfl
  | no_facets pset mesh hr hg hm hf =>
    rw [pipeline_no_facets w l pset mesh hr hg hm hf]; exact Or.inr rfl
  | save_failed pset mesh hr hg hm hf hs =>
    rw [pipeline_save_failed w l pset mesh hr hg hm hf hs]; exact Or.inr rfl
  | saved pset mesh hr hg hm hf hs =>
    rw [pipeline_saved w l pset mesh hr hg hm hf hs]; exact Or.inl rfl

theorem save_mem_pipeline_iff {PointSet Map Adjacency : Type}
    (w : World PointSet Map Adjacency) (l : Locals) (file : String) :
    Event.save file ∈ (pipeline w l).2 ↔
      file = l.output_file ∧ ∃ mesh2, ChecksPass w l mesh2 := by
  have key : ∀ pset mesh, w.read l.input_file = some pset →
      w.generate (assignMethod l) (w.refine_planes (assignMethod l) pset) = some mesh →
      w.size_of_facets
        (optimized w (assignMethod l) (w.refine_planes (assignMethod l) pset) mesh).2 = 0 →
      ¬ ∃ mesh2, ChecksPass w l mesh2 := by
    rintro pset mesh hr hm hf ⟨mesh2, p, c, hp, -, hc, rfl, hle⟩
    rw [hr] at hp
    cases hp
    rw [hm] at hc
    cases hc
    omega
  cases ending w l with
  | read_failed hr =>
    rw [pipeline_read_failed w l hr]
    simp [ChecksPass, hr]
  | no_groups pset hr hg =>
    rw [pipeline_no_groups w l pset hr hg]
    have hnc : ¬ ∃ mesh2, ChecksPass w l mesh2 := by
      rintro ⟨mesh2, p, c, hp, hgp, -⟩
      rw [hr] at hp
      cases hp
      rw [hg] at hgp
      exact absurd hgp (by decide)
    simp [hnc]
  | generate_failed pset hr hg hm =>
    rw [pipeline_generate_failed w l pset hr hg hm]
    have hnc : ¬ ∃ mesh2, ChecksPass w l mesh2 := by
      rintro ⟨mesh2, p, c, hp, -, hc, -⟩
      rw [hr] at hp
      cases hp
      rw [hm] at hc
      exact absurd hc (by simp)
    simp [hnc]
  | no_facets pset mesh hr hg hm hf =>
    rw [pipeline_no_facets w l pset mesh hr hg hm hf]
    simp [key pset mesh hr hm hf]
  | save_failed pset mesh hr hg hm hf hs =>
    rw [pipeline_save_failed w l pset mesh hr hg hm hf hs]
    have hc : ∃ mesh2, ChecksPass w l mesh2 :=
      ⟨_, pset, mesh, hr, hg, hm, rfl, Nat.one_le_iff_ne_zero.mpr hf⟩
    simp [hc]
  | saved pset mesh hr hg hm hf hs =>
    rw [pipeline_saved w l pset mesh hr hg hm hf hs]
    have hc : ∃ mesh2, ChecksPass w l mesh2 :=
      ⟨_, pset, mesh, hr, hg, hm, rfl, Nat.one_le_iff_ne_zero.mpr hf⟩
    simp [hc]

theorem mem_main_trace_iff {PointSet Map Adjacency : Type}
    (w : World PointSet Map Adjacency) (cl : CommandLine) (e : Event)
    (he : e.stage ≠ none) :
    e ∈ (main w cl).trace ↔ e ∈ (pipeline w (options cl initialLocals).1).2 := by
  have h1 : e ≠ Event.cout "PolyFit Commandline Tool" := by
    rintro rfl; exact he rfl
  have h2 : e ≠ Event.Logger_initialize := by
    rintro rfl; exact he rfl
  have h3 : e ∉ (options cl initialLocals).2 := by
    cases cl with
    | accepted s =>
      rw [options_accepted_snd]
      cases s.help
      · simp
      · simp only [if_true, List.mem_singleton]
        rintro rfl; exact he rfl
    | rejected what seen =>
      rw [options_rejected]
      simp only [List.mem_singleton]
      rintro rfl; exact he rfl
  simp [main, h1, h2, h3]

theorem stageCalls_pipeline {PointSet Map Adjacency : Type}
    (w : World PointSet Map Adjacency) (l : Locals) :
    stageCalls (pipeline w l).2 <+: allStages ∧ (stageCalls (pipeline w l).2).Nodup := by
  cases ending w l with
  | read_failed hr =>
    rw [pipeline_read_failed w l hr]
    show [Stage.read] <+: allStages ∧ [Stage.read].Nodup
    exact ⟨⟨_, rfl⟩, by decide⟩
  | no_groups pset hr hg =>
    rw [pipeline_no_groups w l pset hr hg]
    show [Stage.read] <+: allStages ∧ [Stage.read].Nodup
    exact ⟨⟨_, rfl⟩, by decide⟩
  | generate_failed pset hr hg hm =>
    rw [pipeline_generate_failed w l pset hr hg hm]
    show [Stage.read, Stage.refine_planes, Stage.generate] <+: allStages ∧
      [Stage.read, Stage.refine_planes, Stage.generate].Nodup
    exact ⟨⟨_, rfl⟩, by decide⟩
  | no_facets pset mesh hr hg hm hf =>
    rw [pipeline_no_facets w l pset mesh hr hg hm hf]
    show allStages.take 6 <+: allStages ∧ (allStages.take 6).Nodup
    exact ⟨⟨[Stage.save], rfl⟩, by decide⟩
  | save_failed pset mesh hr hg hm hf hs =>
    rw [pipeline_save_failed w l pset mesh hr hg hm hf hs]
    show allStages <+: allStages ∧ allStages.Nodup
    exact ⟨⟨[], rfl⟩, by decide⟩
  | saved pset mesh hr hg hm hf hs =>
    rw [pipeline_saved w l pset mesh hr hg hm hf hs]
    show allStages <+: allStages ∧ allStages.Nodup
    exact ⟨⟨[], rfl⟩, by decide⟩

theorem optimize_mem_pipeline {PointSet Map Adjacency : Type}
    (w : World PointSet Map Adjacency) (l : Locals) (solver_name : LinearProgramSolver)
    (h : Event.optimize solver_name ∈ (pipeline w l).2) :
    solver_name = LinearProgramSolver.SCIP := by
  cases ending w l with
  | read_failed hr => rw [pipeline_read_failed w l hr] at h; simp at h
  | no_groups pset hr hg => rw [pipeline_no_groups w l pset hr hg] at h; simp at h
  | generate_failed pset hr hg hm =>
    rw [pipeline_generate_failed w l pset hr hg hm] at h; simp at h
  | no_facets pset mesh hr hg hm hf =>
    rw [pipeline_no_facets w l pset mesh hr hg hm hf] at h; simpa using h
  | save_failed pset mesh hr hg hm hf hs =>
    rw [pipeline_save_failed w l pset mesh hr hg hm hf hs] at h; simpa using h
  | saved pset mesh hr hg hm hf hs =>
    rw [pipeline_saved w l pset mesh hr hg hm hf hs] at h; simpa using h

theorem optimize_mem_main {PointSet Map Adjacency : Type}
    (w : World PointSet Map Adjacency) (cl : CommandLine) (solver_name : LinearProgramSolver)
    (h : Event.optimize solver_name ∈ (main w cl).trace) :
    solver_name = LinearProgramSolver.SCIP :=
  optimize_mem_pipeline w _ solver_name
    ((mem_main_trace_iff w cl (Event.optimize solver_name) (by simp [Event.stage])).1 h)

theorem read_mem_pipeline_iff {PointSet Map Adjacency : Type}
    (w : World PointSet Map Adjacency) (l : Locals) (file : String) :
    Event.read file ∈ (pipeline w l).2 ↔ file = l.input_file := by
  cases ending w l with
  | read_failed hr => rw [pipeline_read_failed w l hr]; simp
  | no_groups pset hr hg => rw [pipeline_no_groups w l pset hr hg]; simp
  | generate_failed pset hr hg hm => rw [pipeline_generate_failed w l pset hr hg hm]; simp
  | no_facets pset mesh hr hg hm hf => rw [pipeline_no_facets w l pset mesh hr hg hm hf]; simp
  | save_failed pset mesh hr hg hm hf hs =>
    rw [pipeline_save_failed w l pset mesh hr hg hm hf hs]; simp
  | saved pset mesh hr hg hm hf hs => rw [pipeline_saved w l pset mesh hr hg hm hf hs]; simp

theorem read_mem_main_iff {PointSet Map Adjacency : Type}
    (w : World PointSet Map Adjacency) (cl : CommandLine) (file : String) :
    Event.read file ∈ (main w cl).trace ↔ file = (options cl initialLocals).1.input_file := by
  rw [mem_main_trace_iff w cl (Event.read file) (by simp [Event.stage]), read_mem_pipeline_iff]

theorem save_mem_main {PointSet Map Adjacency : Type}
    (w : World PointSet Map Adjacency) (cl : CommandLine) (file : String)
    (h : Event.save file ∈ (main w cl).trace) :
    file = (options cl initialLocals).1.output_file := by
  rw [mem_main_trace_iff w cl (Event.save file) (by simp [Event.stage]),
    save_mem_pipeline_iff] at h
  exact h.1

theorem main_accepted {PointSet Map Adjacency : Type}
    (w : World PointSet Map Adjacency) (s : Supplied) :
    main w (CommandLine.accepted s) =
      { exit := (pipeline w (suppliedOrDefault s)).1
        Method := assignMethod (suppliedOrDefault s)
        trace := [Event.cout "PolyFit Commandline Tool"] ++
          (if s.help then [Event.cout_desc] else []) ++
          [Event.Logger_initialize] ++ (pipeline w (suppliedOrDefault s)).2 } := by
  simp only [main, options_accepted_fst, options_accepted_snd]

theorem method_noFlags {PointSet Map Adjacency : Type}
    (w : World PointSet Map Adjacency) :
    (main w (CommandLine.accepted noFlags)).Method =
      ⟨7214203 / 2 ^ 24, 9059697 / 2 ^ 25, 5033165 / 2 ^ 24⟩ := by
  rw [main_accepted]
  show (⟨float (double 0.43), float (double 0.27), float (double 0.3)⟩ : Method) = _
  rw [float_double_043, float_double_027, float_double_03]

/-! ## The claims on exit status and stage order -/

/-- C1: `main` returns `EXIT_SUCCESS` (0) exactly when the point set loaded,
its group list is not empty, `generate` returned a mesh, the mesh has at least
one facet after `optimize`, and `save` returned true; in every other case it
returns `EXIT_FAILURE`, which is not zero. -/
theorem main_exit_success_iff {PointSet Map Adjacency : Type}
    (w : World PointSet Map Adjacency) (cl : CommandLine) :
    ((main w cl).exit = EXIT_SUCCESS ↔
      ∃ pset mesh,
        w.read (options cl initialLocals).1.input_file = some pset ∧
        w.groups_empty pset = false ∧
        w.generate (main w cl).Method (w.refine_planes (main w cl).Method pset) = some mesh ∧
        1 ≤ w.size_of_facets
          (optimized w (main w cl).Method (w.refine_planes (main w cl).Method pset) mesh).2 ∧
        w.save (options cl initialLocals).1.output_file
          (optimized w (main w cl).Method (w.refine_planes (main w cl).Method pset) mesh).2
            = true) ∧
    ((main w cl).exit ≠ EXIT_SUCCESS → (main w cl).exit = EXIT_FAILURE) ∧
    EXIT_SUCCESS = 0 ∧ EXIT_FAILURE ≠ 0 := by
  refine ⟨?_, ?_, rfl, by decide⟩
  · show (pipeline w (options cl initialLocals).1).1 = EXIT_SUCCESS ↔ _
    rw [pipeline_exit_success_iff]
    constructor
    · rintro ⟨mesh2, ⟨pset, mesh, hr, hg, hm, rfl, hle⟩, hs⟩
      exact ⟨pset, mesh, hr, hg, hm, hle, hs⟩
    · rintro ⟨pset, mesh, hr, hg, hm, hle, hs⟩
      exact ⟨_, ⟨pset, mesh, hr, hg, hm, rfl, hle⟩, hs⟩
  · intro h
    rcases pipeline_exit_cases w (options cl initialLocals).1 with h0 | h1
    · exact absurd h0 h
    · exact h1

/-- C1, at a concrete run: in a world where every stage succeeds, `main`
without options returns 0. -/
theorem main_exit_success_iff_witness :
    (main goodWorld (CommandLine.accepted noFlags)).exit = 0 :=
  ((main_exit_success_iff goodWorld (CommandLine.accepted noFlags)).1.2
    ⟨(), 6, rfl, rfl, rfl, by decide, rfl⟩)

/-- C3: nothing is written before the checks have passed.  `MapIO::save` is
invoked in a run of `main` exactly when the point set loaded, its group list
was not empty, `generate` returned a mesh and the mesh had at least one facet
after `optimize`; it is then invoked on the output path, with the mesh that
passed the facet check, as the last of the seven stage calls.  When one of the
checks fails, `save` is not invoked. -/
theorem save_only_after_checks {PointSet Map Adjacency : Type}
    (w : World PointSet Map Adjacency) (cl : CommandLine) :
    ((∃ file, Event.save file ∈ (main w cl).trace) ↔
      ∃ pset mesh,
        w.read (options cl initialLocals).1.input_file = some pset ∧
        w.groups_empty pset = false ∧
        w.generate (main w cl).Method (w.refine_planes (main w cl).Method pset) = some mesh ∧
        1 ≤ w.size_of_facets
          (optimized w (main w cl).Method (w.refine_planes (main w cl).Method pset) mesh).2) ∧
    (∀ file, Event.save file ∈ (main w cl).trace →
      file = (options cl initialLocals).1.output_file ∧
      stageCalls (main w cl).trace = allStages) := by
  have hiff : ∀ file, Event.save file ∈ (main w cl).trace ↔
      file = (options cl initialLocals).1.output_file ∧
        ∃ mesh2, ChecksPass w (options cl initialLocals).1 mesh2 := by
    intro file
    rw [mem_main_trace_iff w cl (Event.save file) (by simp [Event.stage]),
      save_mem_pipeline_iff]
  constructor
  · constructor
    · rintro ⟨file, hmem⟩
      obtain ⟨-, mesh2, pset, mesh, hr, hg, hm, rfl, hle⟩ := (hiff file).1 hmem
      exact ⟨pset, mesh, hr, hg, hm, hle⟩
    · rintro ⟨pset, mesh, hr, hg, hm, hle⟩
      exact ⟨_, (hiff _).2 ⟨rfl, _, pset, mesh, hr, hg, hm, rfl, hle⟩⟩
  · intro file hmem
    obtain ⟨hfile, mesh2, pset, mesh, hr, hg, hm, rfl, hle⟩ := (hiff file).1 hmem
    refine ⟨hfile, ?_⟩
    rw [stageCalls_main]
    have hf : w.size_of_facets (optimized w (assignMethod (options cl initialLocals).1)
        (w.refine_planes (assignMethod (options cl initialLocals).1) pset) mesh).2 ≠ 0 := by
      omega
    cases hs : w.save (options cl initialLocals).1.output_file
        (optimized w (assignMethod (options cl initialLocals).1)
          (w.refine_planes (assignMethod (options cl initialLocals).1) pset) mesh).2
    · rw [pipeline_save_failed w _ pset mesh hr hg hm hf hs]
      rfl
    · rw [pipeline_saved w _ pset mesh hr hg hm hf hs]
      rfl

/-- C3, at a concrete run: in a world where every stage succeeds, `save` is
invoked on `out.obj` and the stage calls are the full sequence. -/
theorem save_only_after_checks_witness :
    Event.save "out.obj" ∈ (main goodWorld (CommandLine.accepted noFlags)).trace ∧
    stageCalls (main goodWorld (CommandLine.accepted noFlags)).trace = allStages :=
  ⟨by decide,
   ((save_only_after_checks goodWorld (CommandLine.accepted noFlags)).2 "out.obj"
      (by decide)).2⟩

/-- C7: the stages run in sequence and stop at the first failed check.  In
every run of `main` the stage calls are a prefix of `read`, `refine_planes`,
`generate`, `compute_confidences`, `extract_adjacency`, `optimize`, `save`,
without repetition.  A null point set or an empty group list leaves `read`
alone; a null mesh stops after `generate`; a mesh without facets stops after
`optimize`; and a run that returns `EXIT_SUCCESS` made all seven calls. -/
theorem stages_sequential_fail_fast {PointSet Map Adjacency : Type}
    (w : World PointSet Map Adjacency) (cl : CommandLine) :
    stageCalls (main w cl).trace <+: allStages ∧
    (stageCalls (main w cl).trace).Nodup ∧
    (w.read (options cl initialLocals).1.input_file = none →
      stageCalls (main w cl).trace = [Stage.read]) ∧
    (∀ pset, w.read (options cl initialLocals).1.input_file = some pset →
      w.groups_empty pset = true →
      stageCalls (main w cl).trace = [Stage.read]) ∧
    (∀ pset, w.read (options cl initialLocals).1.input_file = some pset →
      w.groups_empty pset = false →
      w.generate (main w cl).Method (w.refine_planes (main w cl).Method pset) = none →
      stageCalls (main w cl).trace = [Stage.read, Stage.refine_planes, Stage.generate]) ∧
    (∀ pset mesh, w.read (options cl initialLocals).1.input_file = some pset →
      w.groups_empty pset = false →
      w.generate (main w cl).Method (w.refine_planes (main w cl).Method pset) = some mesh →
      w.size_of_facets
        (optimized w (main w cl).Method (w.refine_planes (main w cl).Method pset) mesh).2 = 0 →
      stageCalls (main w cl).trace =
        [Stage.read, Stage.refine_planes, Stage.generate, Stage.compute_confidences,
         Stage.extract_adjacency, Stage.optimize]) ∧
    ((main w cl).exit = EXIT_SUCCESS → stageCalls (main w cl).trace = allStages) := by
  rw [stageCalls_main]
  refine ⟨(stageCalls_pipeline w _).1, (stageCalls_pipeline w _).2, ?_, ?_, ?_, ?_, ?_⟩
  · intro hr
    rw [pipeline_read_failed w _ hr]
    rfl
  · intro pset hr hg
    rw [pipeline_no_groups w _ pset hr hg]
    rfl
  · intro pset hr hg hm
    rw [pipeline_generate_failed w _ pset hr hg hm]
    rfl
  · intro pset mesh hr hg hm hf
    rw [pipeline_no_facets w _ pset mesh hr hg hm hf]
    rfl
  · intro h
    obtain ⟨mesh2, ⟨pset, mesh, hr, hg, hm, rfl, hle⟩, hs⟩ :=
      (pipeline_exit_success_iff w (options cl initialLocals).1).1 h
    rw [pipeline_saved w _ pset mesh hr hg hm (by omega) hs]
    rfl

/-- C7, at a concrete run: in a world where every stage succeeds the run
returns `EXIT_SUCCESS` and its stage calls are the seven stages in order. -/
theorem stages_sequential_fail_fast_witness :
    (main goodWorld (CommandLine.accepted noFlags)).exit = EXIT_SUCCESS ∧
    stageCalls (main goodWorld (CommandLine.accepted noFlags)).trace =
      [Stage.read, Stage.refine_planes, Stage.generate, Stage.compute_confidences,
       Stage.extract_adjacency, Stage.optimize, Stage.save] :=
  ⟨by decide,
   (stages_sequential_fail_fast goodWorld (CommandLine.accepted noFlags)).2.2.2.2.2.2
     (by decide)⟩

/-! ## The claims on the optimisation step -/

/-- C5, as stated, fails: no two command lines, in any world, make `main` hand
different backends to `FaceSelection::optimize`. -/
theorem backend_never_differs :
    ¬ ∃ (PointSet Map Adjacency : Type) (w : World PointSet Map Adjacency)
        (cl₁ cl₂ : CommandLine) (s₁ s₂ : LinearProgramSolver),
        Event.optimize s₁ ∈ (main w cl₁).trace ∧
        Event.optimize s₂ ∈ (main w cl₂).trace ∧ s₁ ≠ s₂ := by
  rintro ⟨P, M, A, w, cl₁, cl₂, s₁, s₂, h₁, h₂, hne⟩
  rw [optimize_mem_main w cl₁ s₁ h₁, optimize_mem_main w cl₂ s₂ h₂] at hne
  exact hne rfl

/-- C5, amended: the backend that the driver hands to the optimizer is fixed
in the code.  Whenever a run of `main` calls `FaceSelection::optimize`, for any
command line and any behaviour of the core, the backend passed is `SCIP`. -/
theorem backend_is_SCIP {PointSet Map Adjacency : Type}
    (w : World PointSet Map Adjacency) (cl : CommandLine) (solver_name : LinearProgramSolver)
    (h : Event.optimize solver_name ∈ (main w cl).trace) :
    solver_name = LinearProgramSolver.SCIP :=
  optimize_mem_main w cl solver_name h

/-- C5, amended, at a concrete run: a run that reaches `optimize` passes `SCIP`,
also when the command line sets every option. -/
theorem backend_is_SCIP_witness :
    Event.optimize LinearProgramSolver.SCIP ∈
      (main goodWorld (CommandLine.accepted
        ⟨true, some "a.vg", some "b.obj", some 1, some 2, some 3⟩)).trace ∧
    LinearProgramSolver.SCIP = LinearProgramSolver.SCIP :=
  ⟨by decide,
   backend_is_SCIP goodWorld
     (CommandLine.accepted ⟨true, some "a.vg", some "b.obj", some 1, some 2, some 3⟩)
     LinearProgramSolver.SCIP (by decide)⟩

/-- C2: on a command line that the option parser accepts, each of the five
configuration values handed to the pipeline is the value supplied for its own
option, or its default when the option is absent, whatever else the command
line supplies: the three `Method::lambda_*` globals, the path of every call of
`PointSetIO::read` (one is always made), and the path of every call of
`MapIO::save`. -/
theorem flags_applied_independently {PointSet Map Adjacency : Type}
    (w : World PointSet Map Adjacency) (s : Supplied) :
    (main w (CommandLine.accepted s)).Method.lambda_data_fitting
      = s.lambda_data_fitting.getD (float (double 0.43)) ∧
    (main w (CommandLine.accepted s)).Method.lambda_model_coverage
      = s.lambda_model_coverage.getD (float (double 0.27)) ∧
    (main w (CommandLine.accepted s)).Method.lambda_model_complexity
      = s.lambda_model_complexity.getD (float (double 0.3)) ∧
    (∀ file, Event.read file ∈ (main w (CommandLine.accepted s)).trace ↔
      file = s.input.getD "in.vg") ∧
    (∀ file, Event.save file ∈ (main w (CommandLine.accepted s)).trace →
      file = s.output.getD "out.obj") ∧
    (options (CommandLine.accepted s) initialLocals).1.output_file
      = s.output.getD "out.obj" := by
  refine ⟨?_, ?_, ?_, ?_, ?_, ?_⟩
  · rw [main_accepted]; rfl
  · rw [main_accepted]; rfl
  · rw [main_accepted]; rfl
  · intro file
    rw [read_mem_main_iff, options_accepted_fst]
    rfl
  · intro file h
    have := save_mem_main w _ file h
    rw [options_accepted_fst] at this
    exact this
  · rw [options_accepted_fst]; rfl

/-- C2, at a concrete run: with all six options on the command line, every
value reaches its own slot. -/
theorem flags_applied_independently_witness :
    (main goodWorld (CommandLine.accepted
      ⟨true, some "a.vg", some "b.obj", some 1, some 2, some 3⟩)).Method = ⟨1, 2, 3⟩ ∧
    Event.read "a.vg" ∈ (main goodWorld (CommandLine.accepted
      ⟨true, some "a.vg", some "b.obj", some 1, some 2, some 3⟩)).trace ∧
    Event.save "b.obj" ∈ (main goodWorld (CommandLine.accepted
      ⟨true, some "a.vg", some "b.obj", some 1, some 2, some 3⟩)).trace :=
  ⟨rfl,
   ((flags_applied_independently goodWorld
      ⟨true, some "a.vg", some "b.obj", some 1, some 2, some 3⟩).2.2.2.1 "a.vg").2 rfl,
   by decide⟩

/-- C4, as stated, fails: without any option the weight for data fitting that
`main` hands to the pipeline is not the decimal 0.43, and the three weights do
not add up to 1. -/
theorem default_weights_not_decimal :
    (main goodWorld (CommandLine.accepted noFlags)).Method.lambda_data_fitting ≠ 0.43 ∧
    (main goodWorld (CommandLine.accepted noFlags)).Method.lambda_data_fitting +
      (main goodWorld (CommandLine.accepted noFlags)).Method.lambda_model_coverage +
      (main goodWorld (CommandLine.accepted noFlags)).Method.lambda_model_complexity ≠ 1 := by
  rw [method_noFlags]
  constructor <;> norm_num

/-- C4, amended: without any option on the command line the three weights
handed to the pipeline are the `float` values of the constants 0.43, 0.27 and
0.3 written in the code, which are 7214203/2^24, 9059697/2^25 and
5033165/2^24, each within 2^-26 of its constant.  The constants as decimals
add up to exactly 1; the three values handed add up to 1 + 2^-25. -/
theorem default_weights {PointSet Map Adjacency : Type}
    (w : World PointSet Map Adjacency) :
    (main w (CommandLine.accepted noFlags)).Method =
      ⟨float (double 0.43), float (double 0.27), float (double 0.3)⟩ ∧
    (main w (CommandLine.accepted noFlags)).Method =
      ⟨7214203 / 2 ^ 24, 9059697 / 2 ^ 25, 5033165 / 2 ^ 24⟩ ∧
    |(main w (CommandLine.accepted noFlags)).Method.lambda_data_fitting - 0.43|
      ≤ 1 / 2 ^ 26 ∧
    |(main w (CommandLine.accepted noFlags)).Method.lambda_model_coverage - 0.27|
      ≤ 1 / 2 ^ 26 ∧
    |(main w (CommandLine.accepted noFlags)).Method.lambda_model_complexity - 0.3|
      ≤ 1 / 2 ^ 26 ∧
    (0.43 + 0.27 + 0.3 : ℚ) = 1 ∧
    (main w (CommandLine.accepted noFlags)).Method.lambda_data_fitting +
      (main w (CommandLine.accepted noFlags)).Method.lambda_model_coverage +
      (main w (CommandLine.accepted noFlags)).Method.lambda_model_complexity
        = 1 + 1 / 2 ^ 25 := by
  refine ⟨by rw [main_accepted]; rfl, method_noFlags w, ?_, ?_, ?_, by norm_num, ?_⟩ <;>
    rw [method_noFlags] <;> norm_num [abs_le]

/-- C8, as stated, fails: there is no accepted command line supplying two or
more of the five valued options on which a supplied value does not reach the
locals that `main` hands to the pipeline. -/
theorem no_supplied_value_discarded :
    ¬ ∃ s : Supplied, 2 ≤ suppliedCount s ∧
      ((∃ v, s.input = some v ∧
          (options (CommandLine.accepted s) initialLocals).1.input_file ≠ v) ∨
       (∃ v, s.output = some v ∧
          (options (CommandLine.accepted s) initialLocals).1.output_file ≠ v) ∨
       (∃ v, s.lambda_data_fitting = some v ∧
          (options (CommandLine.accepted s) initialLocals).1.lambda_data_fitting ≠ v) ∨
       (∃ v, s.lambda_model_coverage = some v ∧
          (options (CommandLine.accepted s) initialLocals).1.lambda_model_coverage ≠ v) ∨
       (∃ v, s.lambda_model_complexity = some v ∧
          (options (CommandLine.accepted s) initialLocals).1.lambda_model_complexity ≠ v)) := by
  rintro ⟨s, -, h⟩
  rw [options_accepted_fst] at h
  rcases h with ⟨v, hv, hne⟩ | ⟨v, hv, hne⟩ | ⟨v, hv, hne⟩ | ⟨v, hv, hne⟩ | ⟨v, hv, hne⟩ <;>
    exact hne (by simp [suppliedOrDefault, hv])

/-- C8, amended: when several options are supplied together, at most the first
matched branch of the `if`/`else if` chain runs (the `help` branch, and else
the `input` branch), and no supplied value is lost.  `notify` has written every
bound variable before the chain, the chain leaves the five locals as `notify`
set them, and each supplied value reaches the locals handed to the pipeline. -/
theorem chain_discards_nothing (s : Supplied) :
    (∀ l, (chain (store s) l).1 =
      if s.help then l else { l with input_file := s.input.getD "in.vg" }) ∧
    (chain (store s) (notify (store s) initialLocals)).1 = notify (store s) initialLocals ∧
    (∀ v, s.input = some v →
      (options (CommandLine.accepted s) initialLocals).1.input_file = v) ∧
    (∀ v, s.output = some v →
      (options (CommandLine.accepted s) initialLocals).1.output_file = v) ∧
    (∀ v, s.lambda_data_fitting = some v →
      (options (CommandLine.accepted s) initialLocals).1.lambda_data_fitting = v) ∧
    (∀ v, s.lambda_model_coverage = some v →
      (options (CommandLine.accepted s) initialLocals).1.lambda_model_coverage = v) ∧
    (∀ v, s.lambda_model_complexity = some v →
      (options (CommandLine.accepted s) initialLocals).1.lambda_model_complexity = v) := by
  refine ⟨chain_store_fst s, chain_fst_of_notify s initialLocals, ?_, ?_, ?_, ?_, ?_⟩ <;>
    · intro v hv
      rw [options_accepted_fst]
      simp [suppliedOrDefault, hv]

/-- C8, amended, at a concrete command line: `-i a.vg -o b.obj -x 3` leaves
all three values in the locals. -/
theorem chain_discards_nothing_witness :
    2 ≤ suppliedCount ⟨false, some "a.vg", some "b.obj", none, none, some 3⟩ ∧
    (options (CommandLine.accepted ⟨false, some "a.vg", some "b.obj", none, none, some 3⟩)
      initialLocals).1.input_file = "a.vg" ∧
    (options (CommandLine.accepted ⟨false, some "a.vg", some "b.obj", none, none, some 3⟩)
      initialLocals).1.output_file = "b.obj" ∧
    (options (CommandLine.accepted ⟨false, some "a.vg", some "b.obj", none, none, some 3⟩)
      initialLocals).1.lambda_model_complexity = 3 :=
  ⟨by decide,
   (chain_discards_nothing ⟨false, some "a.vg", some "b.obj", none, none, some 3⟩).2.2.1
     "a.vg" rfl,
   (chain_discards_nothing ⟨false, some "a.vg", some "b.obj", none, none, some 3⟩).2.2.2.1
     "b.obj" rfl,
   (chain_discards_nothing ⟨false, some "a.vg", some "b.obj", none, none, some 3⟩).2.2.2.2.2.2
     3 rfl⟩

/-- C9: a command line that makes the option parser throw does not end the
program.  `main` prints the error message, initialises the logger and runs the
pipeline with the five configuration values at their initial values `in.vg`,
`out.obj` and the `float`s of 0.43, 0.27 and 0.3, whatever well-formed options
the command line also held. -/
theorem rejected_runs_defaults {PointSet Map Adjacency : Type}
    (w : World PointSet Map Adjacency) (what : String) (seen : Supplied) :
    (main w (CommandLine.rejected what seen)).trace =
      [Event.cout "PolyFit Commandline Tool", Event.cerr what, Event.Logger_initialize] ++
        (pipeline w ⟨float (double 0.43), float (double 0.27), float (double 0.3),
          "in.vg", "out.obj"⟩).2 ∧
    (main w (CommandLine.rejected what seen)).exit =
      (pipeline w ⟨float (double 0.43), float (double 0.27), float (double 0.3),
        "in.vg", "out.obj"⟩).1 ∧
    (main w (CommandLine.rejected what seen)).Method =
      ⟨float (double 0.43), float (double 0.27), float (double 0.3)⟩ ∧
    (∀ file, Event.read file ∈ (main w (CommandLine.rejected what seen)).trace ↔
      file = "in.vg") ∧
    (∀ file, Event.save file ∈ (main w (CommandLine.rejected what seen)).trace →
      file = "out.obj") := by
  refine ⟨rfl, rfl, rfl, ?_, ?_⟩
  · intro file
    rw [read_mem_main_iff]
    rfl
  · intro file h
    exact save_mem_main w _ file h

/-- C9, at a concrete run: `-i a.vg -f 0.5 --bogus` is rejected, and the run
reads `in.vg`, saves to `out.obj` and uses the default weights. -/
theorem rejected_runs_defaults_witness :
    Event.cerr "unrecognised option" ∈
      (main goodWorld (CommandLine.rejected "unrecognised option"
        ⟨false, some "a.vg", none, some 0.5, none, none⟩)).trace ∧
    Event.read "in.vg" ∈
      (main goodWorld (CommandLine.rejected "unrecognised option"
        ⟨false, some "a.vg", none, some 0.5, none, none⟩)).trace ∧
    Event.save "out.obj" ∈
      (main goodWorld (CommandLine.rejected "unrecognised option"
        ⟨false, some "a.vg", none, some 0.5, none, none⟩)).trace ∧
    (main goodWorld (CommandLine.rejected "unrecognised option"
        ⟨false, some "a.vg", none, some 0.5, none, none⟩)).Method =
      ⟨float (double 0.43), float (double 0.27), float (double 0.3)⟩ :=
  ⟨by decide,
   ((rejected_runs_defaults goodWorld "unrecognised option"
      ⟨false, some "a.vg", none, some 0.5, none, none⟩).2.2.2.1 "in.vg").2 rfl,
   by decide,
   (rejected_runs_defaults goodWorld "unrecognised option"
      ⟨false, some "a.vg", none, some 0.5, none, none⟩).2.2.1⟩

/-- C10: `--help` does not stop the program.  On an accepted command line with
`--help`, `main` prints the option description, then initialises the logger
and runs the pipeline on the values that the rest of the command line supplies
(or their defaults); the exit status, the `Method` globals and the stage calls
are those of the same command line without `--help`, whose trace differs only
by the missing description. -/
theorem help_does_not_stop {PointSet Map Adjacency : Type}
    (w : World PointSet Map Adjacency) (s : Supplied) (h : s.help = true) :
    (main w (CommandLine.accepted s)).trace =
      [Event.cout "PolyFit Commandline Tool", Event.cout_desc, Event.Logger_initialize] ++
        (pipeline w ⟨s.lambda_data_fitting.getD (float (double 0.43)),
          s.lambda_model_coverage.getD (float (double 0.27)),
          s.lambda_model_complexity.getD (float (double 0.3)), s.input.getD "in.vg",
          s.output.getD "out.obj"⟩).2 ∧
    (main w (CommandLine.accepted { s with help := false })).trace =
      [Event.cout "PolyFit Commandline Tool", Event.Logger_initialize] ++
        (pipeline w ⟨s.lambda_data_fitting.getD (float (double 0.43)),
          s.lambda_model_coverage.getD (float (double 0.27)),
          s.lambda_model_complexity.getD (float (double 0.3)), s.input.getD "in.vg",
          s.output.getD "out.obj"⟩).2 ∧
    (main w (CommandLine.accepted s)).exit =
      (main w (CommandLine.accepted { s with help := false })).exit ∧
    (main w (CommandLine.accepted s)).Method =
      (main w (CommandLine.accepted { s with help := false })).Method ∧
    stageCalls (main w (CommandLine.accepted s)).trace =
      stageCalls (main w (CommandLine.accepted { s with help := false })).trace := by
  have e1 := main_accepted w s
  have e2 := main_accepted w { s with help := false }
  have hs : suppliedOrDefault { s with help := false } = suppliedOrDefault s := rfl
  rw [hs] at e2
  rw [h] at e1
  refine ⟨?_, ?_, ?_, ?_, ?_⟩
  · rw [e1]; rfl
  · rw [e2]; rfl
  · rw [e1, e2]
  · rw [e1, e2]
  · rw [stageCalls_main, stageCalls_main, options_accepted_fst, options_accepted_fst, hs]

/-- C10, at a concrete run: `--help -i a.vg -o b.obj` in a world where every
stage succeeds prints the description, makes all seven stage calls on the
supplied paths and returns 0. -/
theorem help_does_not_stop_witness :
    (main goodWorld (CommandLine.accepted
      ⟨true, some "a.vg", some "b.obj", none, none, none⟩)).trace =
      [Event.cout "PolyFit Commandline Tool", Event.cout_desc, Event.Logger_initialize] ++
        (pipeline goodWorld ⟨float (double 0.43), float (double 0.27), float (double 0.3),
          "a.vg", "b.obj"⟩).2 ∧
    stageCalls (main goodWorld (CommandLine.accepted
      ⟨true, some "a.vg", some "b.obj", none, none, none⟩)).trace = allStages ∧
    (main goodWorld (CommandLine.accepted
      ⟨true, some "a.vg", some "b.obj", none, none, none⟩)).exit = 0 :=
  ⟨(help_does_not_stop goodWorld ⟨true, some "a.vg", some "b.obj", none, none, none⟩ rfl).1,
   by decide, by decide⟩

end PolyFit
